import Mathlib

/-!
Verification development for a conversational banking agent.

The Python source is shallowly embedded: dictionaries become Lean structures
with `Option` fields (a `none` field models an absent key), JSON session-state
documents become partial maps `String → Option α`, Python floats are modelled
as exact rationals `ℚ`, and code that can raise an uncaught exception returns
`Option`.  Natural-language response texts and wall-clock timestamps are not
modelled; no claim depends on them.
-/

namespace BankingAgent

/-! ## Session state store (src/core/state_manager.py)

A session-state document (the JSON blob stored in the `session_state` table)
is modelled as a partial map from top-level keys to values; the store maps a
session id to an optional document. -/

section StateManager

variable {α : Type}

/-- A session-state document: top-level key to value, `none` = key absent. -/
def StateDoc (α : Type) : Type := String → Option α

/-- The empty document `{}`. -/
def emptyDoc : StateDoc α := fun _ => none

/-- The session-state store: session id to stored document. -/
def StateStore (α : Type) : Type := String → Option (StateDoc α)

/-- A store with no sessions. -/
def emptyStore : StateStore α := fun _ => none

/-- Python `dict.update`: keys of `new` override `old`, other keys kept. -/
def dictUpdate (old new : StateDoc α) : StateDoc α :=
  fun k => match new k with
  | some v => some v
  | none => old k

/-- `StateManager.get_state`: read the stored document for a session. -/
def get_state (store : StateStore α) (sessionId : String) : Option (StateDoc α) :=
  store sessionId

/-- `StateManager.update_state`: read the existing document (`or {}`),
shallow-merge the supplied fields over it, and persist the result. -/
def update_state (store : StateStore α) (sessionId : String) (newStateData : StateDoc α) :
    StateStore α :=
  fun s =>
    if s = sessionId then some (dictUpdate ((get_state store sessionId).getD emptyDoc) newStateData)
    else store s

/-- A sequence of `update_state` operations on one session, first to last. -/
def applyUpdates (store : StateStore α) (sessionId : String) (us : List (StateDoc α)) :
    StateStore α :=
  us.foldl (fun st u => update_state st sessionId u) store

/-- The shallow union of a list of updates at one key: the last update that
sets the key wins; `none` when no update sets it. -/
def shallowUnion (us : List (StateDoc α)) (k : String) : Option α :=
  us.reverse.findSome? (fun u => u k)

theorem dictUpdate_eq (old new : StateDoc α) (k : String) :
    dictUpdate old new k = match new k with | some v => some v | none => old k := rfl

theorem applyUpdates_key (store : StateStore α) (sessionId : String)
    (us : List (StateDoc α)) (k : String) :
    ((applyUpdates store sessionId us) sessionId).getD emptyDoc k =
      match shallowUnion us k with
      | some v => some v
      | none => ((store sessionId).getD emptyDoc) k := by
  induction us generalizing store with
  | nil => simp [applyUpdates, shallowUnion, emptyDoc]
  | cons u rest ih =>
    show ((applyUpdates (update_state store sessionId u) sessionId rest) sessionId).getD
        emptyDoc k = _
    rw [ih]
    have hstep : (((update_state store sessionId u) sessionId).getD emptyDoc) k =
        match u k with
        | some v => some v
        | none => ((store sessionId).getD emptyDoc) k := by
      simp [update_state, get_state, dictUpdate]
    have hrev : shallowUnion (u :: rest) k =
        match shallowUnion rest k with
        | some v => some v
        | none => u k := by
      simp only [shallowUnion, List.reverse_cons, List.findSome?_append]
      cases rest.reverse.findSome? (fun d => d k) with
      | none => cases h : u k <;> simp [List.findSome?, h]
      | some v => simp
    rw [hrev]
    cases hr : shallowUnion rest k with
    | some v => simp
    | none => simp [hstep]

/-- C1: session-state writes are shallow merges, never replaces.  For every
sequence of updates applied to a fresh session the resulting document equals
the top-level shallow union of the updates, later keys overriding earlier
ones, with unset keys absent; and a single `update_state` that does not
supply `multi_step_process` leaves a previously stored `multi_step_process`
value unchanged. -/
theorem state_updates_are_shallow_merges {α : Type}
    (sessionId : String) (us : List (StateDoc α))
    (store : StateStore α) (u : StateDoc α)
    (hu : u "multi_step_process" = none) :
    (∀ k, ((applyUpdates emptyStore sessionId us) sessionId).getD emptyDoc k =
        shallowUnion us k) ∧
    ((update_state store sessionId u) sessionId).getD emptyDoc "multi_step_process" =
      ((store sessionId).getD emptyDoc) "multi_step_process" := by
  constructor
  · intro k
    rw [applyUpdates_key]
    cases h : shallowUnion us k with
    | some v => simp
    | none => simp [emptyStore, emptyDoc]
  · simp [update_state, get_state, dictUpdate, hu]

/-- Witness for C1: two updates on a fresh session, the first setting only
`multi_step_process` and the second setting only `pending_action`; the
resulting document keeps both values, and the second update did not erase
the stored `multi_step_process`. -/
theorem state_updates_are_shallow_merges_witness :
    (fun k => if k = "pending_action" then some 2 else none : StateDoc Nat)
        "multi_step_process" = none ∧
    ((applyUpdates emptyStore "s1"
        [fun k => if k = "multi_step_process" then some 1 else none,
         fun k => if k = "pending_action" then some 2 else none]) "s1").getD emptyDoc
        "multi_step_process" = some 1 := by
  refine ⟨by decide, ?_⟩
  have h := state_updates_are_shallow_merges (α := Nat) "s1"
    [fun k => if k = "multi_step_process" then some 1 else none,
     fun k => if k = "pending_action" then some 2 else none]
    emptyStore (fun k => if k = "pending_action" then some 2 else none)
    (by decide)
  rw [h.1 "multi_step_process"]
  decide

end StateManager

/-! ## Rounding helpers

Python `round(x, n)` rounds half to even; the binary-float representation
error is not modelled (amounts here are exact rationals). -/

/-- Round half to even, as Python `round` does on the last kept digit. -/
def roundHalfEven (x : ℚ) : ℤ :=
  let n := ⌊x⌋
  let f := x - n
  if f < 1/2 then n
  else if 1/2 < f then n + 1
  else if n % 2 = 0 then n else n + 1

/-- Python `round(x, 2)`. -/
def round2 (x : ℚ) : ℚ := (roundHalfEven (x * 100) : ℚ) / 100

/-- Python `round(x, 1)`. -/
def round1 (x : ℚ) : ℚ := (roundHalfEven (x * 10) : ℚ) / 10

/-! ## Cards (src/services/mock_banking_api.py, src/services/database_service.py)

A card row of the `cards` table.  `db.get_card card_id` is modelled by
passing the looked-up row (`Option Card`) to the operation; the second
component of each result is the stored row after the call.  `blocked_date`
(a DB timestamp) is modelled as an abstract `Nat` clock value. -/

structure Card where
  userId : String
  type : String
  status : String
  brand : String
  lastFour : String
  limitAmount : Option ℚ := none
  availableCredit : Option ℚ := none
  blockedDate : Option Nat := none
  blockedReason : Option String := none
deriving DecidableEq

/-- Result of `block_card_data`.  Constructors correspond to the result
dicts of the source; response texts are not modelled.  The `success` branch
is always reached once `db.block_card` runs because the card row exists
(`rowcount > 0`), so no separate failure constructor is needed. -/
inductive BlockResult where
  | notFound
  | unauthorized
  | alreadyBlocked (brand type lastFour : String)
  | blocked (brand type lastFour : String) (blockedDate : Option Nat)
deriving DecidableEq

/-- The `status` tag of each `block_card_data` result dict. -/
def blockStatus : BlockResult → String
  | .notFound => "error"
  | .unauthorized => "error"
  | .alreadyBlocked _ _ _ => "warning"
  | .blocked _ _ _ _ => "success"

/-- `block_card_data(user_id, card_id)`: `.notFound` carries the message
`Card not found`, `.unauthorized` the message `Unauthorized access to card`.
`db.block_card` sets status, `blocked_date` and `blocked_reason`. -/
def block_card_data (userId : String) (card : Option Card) (now : Nat) :
    BlockResult × Option Card :=
  match card with
  | none => (.notFound, none)
  | some c =>
    if c.userId ≠ userId then (.unauthorized, some c)
    else if c.status = "blocked" then (.alreadyBlocked c.brand c.type c.lastFour, some c)
    else
      let c' := { c with
        status := "blocked", blockedDate := some now,
        blockedReason := some "Customer request" }
      (.blocked c.brand c.type c.lastFour c'.blockedDate, some c')

/-- C7: blocking an already-blocked card returns the `warning` result, not
`success`, and the stored card row — in particular its `blocked_date` — is
unchanged. -/
theorem block_already_blocked_warns (userId : String) (c : Card) (now : Nat)
    (howner : c.userId = userId) (hblocked : c.status = "blocked") :
    (block_card_data userId (some c) now).1 = .alreadyBlocked c.brand c.type c.lastFour ∧
    blockStatus (block_card_data userId (some c) now).1 = "warning" ∧
    (block_card_data userId (some c) now).2 = some c := by
  simp [block_card_data, howner, hblocked, blockStatus]

/-- A demonstration card row already in the blocked state. -/
def demoBlockedCard : Card :=
  { userId := "user_1", type := "credit", status := "blocked", brand := "Visa",
    lastFour := "1234", limitAmount := some 10000, availableCredit := some 5000,
    blockedDate := some 3, blockedReason := some "Customer request" }

/-- Witness for C7: re-blocking `demoBlockedCard` yields the warning result
and leaves the row (with `blocked_date = 3`) untouched. -/
theorem block_already_blocked_warns_witness :
    demoBlockedCard.userId = "user_1" ∧ demoBlockedCard.status = "blocked" ∧
    blockStatus (block_card_data "user_1" (some demoBlockedCard) 9).1 = "warning" ∧
    (block_card_data "user_1" (some demoBlockedCard) 9).2 = some demoBlockedCard := by
  have h := block_already_blocked_warns "user_1" demoBlockedCard 9 rfl rfl
  exact ⟨rfl, rfl, h.2.1, h.2.2⟩

/-- C10: ownership guard on card blocking.  A missing card id yields the
`Card not found` error; a card stored under a different `user_id` yields the
`Unauthorized access to card` error; in both cases no database write occurs,
so another user's card is never blocked. -/
theorem block_card_ownership_guard (userId : String) (card : Option Card) (now : Nat) :
    (card = none → block_card_data userId card now = (.notFound, none) ∧
      blockStatus (block_card_data userId card now).1 = "error") ∧
    (∀ c, card = some c → c.userId ≠ userId →
      block_card_data userId card now = (.unauthorized, some c) ∧
      blockStatus (block_card_data userId card now).1 = "error") := by
  constructor
  · rintro rfl
    simp [block_card_data, blockStatus]
  · rintro c rfl hne
    simp [block_card_data, hne, blockStatus]

/-- Witness for C10: user `user_1` asking to block `demoBlockedCard` when it
is stored under `user_2` gets the unauthorized error and the row survives. -/
theorem block_card_ownership_guard_witness :
    block_card_data "user_1" (some { demoBlockedCard with userId := "user_2" }) 7 =
      (.unauthorized, some { demoBlockedCard with userId := "user_2" }) ∧
    block_card_data "user_1" (none : Option Card) 7 = (.notFound, none) := by
  refine ⟨?_, ?_⟩
  · exact ((block_card_ownership_guard "user_1"
      (some { demoBlockedCard with userId := "user_2" }) 7).2 _ rfl (by decide)).1
  · exact ((block_card_ownership_guard "user_1" none 7).1 rfl).1

/-- Result of `modify_credit_limit_data`.  `.cardNotFound` covers both the
missing row and the foreign-owner case (one `Card not found` message in the
source); `.dbError` is the blanket `except` branch, reached on the
`TypeError`/`ZeroDivisionError` of a NULL or zero stored limit. -/
inductive LimitResult where
  | cardNotFound
  | notCreditCard
  | belowMinimum
  | aboveMaximum
  | dbError
  | success (oldLimit newLimit newAvailable : ℚ)
deriving DecidableEq

/-- The `status` tag of each `modify_credit_limit_data` result dict. -/
def limitStatus : LimitResult → String
  | .success _ _ _ => "success"
  | _ => "error"

/-- `modify_credit_limit_data(user_id, card_id, new_limit)`. -/
def modify_credit_limit_data (userId : String) (card : Option Card) (newLimit : ℚ) :
    LimitResult × Option Card :=
  match card with
  | none => (.cardNotFound, none)
  | some c =>
    if c.userId ≠ userId then (.cardNotFound, some c)
    else if c.type ≠ "credit" then (.notCreditCard, some c)
    else if newLimit < 1000 then (.belowMinimum, some c)
    else if newLimit > 100000 then (.aboveMaximum, some c)
    else
      match c.limitAmount with
      | none => (.dbError, some c)
      | some oldLimit =>
        if oldLimit = 0 then (.dbError, some c)
        else
          let utilization := (oldLimit - c.availableCredit.getD 0) / oldLimit
          let newAvailable := newLimit - newLimit * utilization
          let c' := { c with
            limitAmount := some newLimit,
            availableCredit := some newAvailable }
          (.success oldLimit newLimit newAvailable, some c')

/-- C6: for the user's credit card with old limit `L > 0` and available
credit `A`, a requested limit `N` with `1000 ≤ N ≤ 100000` succeeds and the
new available credit is `N * (1 - (L - A) / L)`; `N < 1000` or `N > 100000`
returns an `error` status and leaves the card unchanged. -/
theorem credit_limit_modification (userId : String) (c : Card) (L A N : ℚ)
    (howner : c.userId = userId) (htype : c.type = "credit")
    (hlim : c.limitAmount = some L) (hL : 0 < L) (hA : c.availableCredit = some A) :
    (1000 ≤ N → N ≤ 100000 →
      modify_credit_limit_data userId (some c) N =
        (.success L N (N * (1 - (L - A) / L)),
         some { c with
           limitAmount := some N,
           availableCredit := some (N * (1 - (L - A) / L)) })) ∧
    ((N < 1000 ∨ 100000 < N) →
      limitStatus (modify_credit_limit_data userId (some c) N).1 = "error" ∧
      (modify_credit_limit_data userId (some c) N).2 = some c) := by
  have hav : N - N * ((L - A) / L) = N * (1 - (L - A) / L) := by ring
  constructor
  · intro h1 h2
    simp only [modify_credit_limit_data, howner, htype, hlim, hA]
    rw [if_neg (by simp), if_neg (by simp), if_neg (not_lt.mpr h1),
      if_neg (not_lt.mpr h2), if_neg hL.ne']
    simp [hav]
  · intro h
    rcases h with h | h
    · simp only [modify_credit_limit_data, howner, htype]
      rw [if_neg (by simp), if_neg (by simp), if_pos h]
      exact ⟨rfl, rfl⟩
    · have h1 : ¬ N < 1000 := by linarith
      simp only [modify_credit_limit_data, howner, htype]
      rw [if_neg (by simp), if_neg (by simp), if_neg h1, if_pos h]
      exact ⟨rfl, rfl⟩

/-- A demonstration active credit card: limit 10000, available 5000. -/
def demoCreditCard : Card :=
  { userId := "user_1", type := "credit", status := "active", brand := "Visa",
    lastFour := "4242", limitAmount := some 10000, availableCredit := some 5000 }

/-- Witness for C6: raising `demoCreditCard`'s limit to 20000 keeps the 50%
utilization (new available credit 10000), while a request of 500 errors and
leaves the card unchanged. -/
theorem credit_limit_modification_witness :
    modify_credit_limit_data "user_1" (some demoCreditCard) 20000 =
      (.success 10000 20000 10000,
       some { demoCreditCard with
         limitAmount := some 20000,
         availableCredit := some 10000 }) ∧
    limitStatus (modify_credit_limit_data "user_1" (some demoCreditCard) 500).1 = "error" ∧
    (modify_credit_limit_data "user_1" (some demoCreditCard) 500).2 = some demoCreditCard := by
  have h := credit_limit_modification "user_1" demoCreditCard 10000 5000 20000
    rfl rfl rfl (by norm_num) rfl
  have h500 := credit_limit_modification "user_1" demoCreditCard 10000 5000 500
    rfl rfl rfl (by norm_num) rfl
  refine ⟨?_, (h500.2 (Or.inl (by norm_num))).1, (h500.2 (Or.inl (by norm_num))).2⟩
  rw [h.1 (by norm_num) (by norm_num)]
  norm_num

/-! ## Loan application (src/services/mock_banking_api.py, apply_for_loan_data)

Python truthiness drives the slot checks: `None`, `0.0` and `""` all count
as an unfilled slot. -/

/-- Python truthiness of an optional amount (`None` and `0.0` are falsy). -/
def pyTruthyQ : Option ℚ → Bool
  | none => false
  | some v => if v = 0 then false else true

/-- Python truthiness of an optional string (`None` and `""` are falsy). -/
def pyTruthyS : Option String → Bool
  | none => false
  | some s => if s = "" then false else true

/-- A previously stored loan application row (`db.get_user_loans`).  Only
`status` feeds the control flow; `amount` and `purpose` appear in response
texts only. -/
structure LoanRecord where
  status : String
  amount : ℚ := 0
  purpose : String := ""
deriving DecidableEq

/-- The `collected_data` slot map of a loan application in progress; a
`none` field models a key absent from the dict. -/
structure CollectedData where
  amount : Option ℚ := none
  purpose : Option String := none
  income : Option ℚ := none
deriving DecidableEq

/-- The fully computed application payload returned on success.  The id of
`f"LOAN{len(existing_apps) + 1:03d}"` is modelled by its numeric part;
`created_date` and `next_step = credit_check` are constants not modelled. -/
structure LoanApplication where
  applicationId : Nat
  amount : ℚ
  purpose : String
  annualIncome : ℚ
  status : String
  interestRate : ℚ
  termMonths : Nat
  estimatedMonthlyPayment : ℚ
  debtToIncomePct : ℚ
deriving DecidableEq

/-- The tagged result dict of `apply_for_loan_data`.  `nextStep` mirrors the
`.get("next_step")` read by the agent, a key the result never carries. -/
structure LoanResult where
  status : String
  requiresContinuation : Bool := false
  processType : Option String := none
  currentStep : Option String := none
  collectedData : CollectedData := {}
  processComplete : Bool := false
  application : Option LoanApplication := none
  isNewApplication : Bool := false
  nextStep : Option String := none
deriving DecidableEq

/-- `apply_for_loan_data(user_id, amount, purpose, income, force_new)`.
`userExists` stands for `db.get_user(user_id)` succeeding and
`existingApps` for `db.get_user_loans(user_id)`.  The two sub-branches of
the force-new/approved-loans early return differ only in response text and
the unread `existing_loan` echo, so they are one modelled result. -/
def apply_for_loan_data (userExists : Bool) (existingApps : List LoanRecord)
    (amount : Option ℚ) (purpose : Option String) (income : Option ℚ)
    (forceNew : Bool) : LoanResult :=
  if !userExists then { status := "error" }
  else
    let approvedLoans := existingApps.filter (fun a => a.status == "approved")
    if forceNew ||
        (!(pyTruthyQ amount || pyTruthyS purpose || pyTruthyQ income) &&
          !approvedLoans.isEmpty) then
      { status := "info", requiresContinuation := true,
        processType := some "loan_application", currentStep := some "amount",
        collectedData := {}, isNewApplication := true }
    else if !pyTruthyQ amount then
      { status := "info", requiresContinuation := true,
        processType := some "loan_application", currentStep := some "amount",
        collectedData := {} }
    else if !pyTruthyS purpose then
      { status := "info", requiresContinuation := true,
        processType := some "loan_application", currentStep := some "purpose",
        collectedData := { amount := amount } }
    else if !pyTruthyQ income then
      { status := "info", requiresContinuation := true,
        processType := some "loan_application", currentStep := some "income",
        collectedData := { amount := amount, purpose := purpose } }
    else
      let a := amount.getD 0
      let p := purpose.getD ""
      let i := income.getD 0
      let dti := (a * 12) / (if i > 0 then i else 50000)
      let interestRate : ℚ :=
        if dti < 1/10 then 52/10
        else if dti < 2/10 then 65/10
        else if dti < 3/10 then 82/10
        else 105/10
      let monthlyRate := interestRate / 100 / 12
      let numPayments : Nat := 60
      let monthlyPayment := round2 ((a * monthlyRate * (1 + monthlyRate) ^ numPayments) /
        ((1 + monthlyRate) ^ numPayments - 1))
      { status := "success", processComplete := true,
        application := some
          { applicationId := existingApps.length + 1, amount := a, purpose := p,
            annualIncome := i, status := "in_review", interestRate := interestRate,
            termMonths := numPayments, estimatedMonthlyPayment := monthlyPayment,
            debtToIncomePct := round1 (dti * 100) } }

/-- The debt-to-income banding of the spec: `<0.10 → 5.2`, `<0.20 → 6.5`,
`<0.30 → 8.2`, otherwise `10.5` (percent). -/
def rateBand (dti : ℚ) : ℚ :=
  if dti < 1/10 then 52/10
  else if dti < 2/10 then 65/10
  else if dti < 3/10 then 82/10
  else 105/10

/-- The standard amortization monthly payment for `principal` at the yearly
percent rate `annualRatePct` over `n` months (the spec's formula). -/
def amortMonthly (principal annualRatePct : ℚ) (n : ℕ) : ℚ :=
  let r := annualRatePct / 100 / 12
  (principal * r * (1 + r) ^ n) / ((1 + r) ^ n - 1)

/-- C3: with all three slots supplied (nonzero amount, nonempty purpose,
income `> 0`) and no forced restart, the application succeeds, its interest
rate is the debt-to-income band of `(amount * 12) / income`, and its monthly
payment is the 60-month amortization formula at that rate, rounded to
cents. -/
theorem loan_pricing (existingApps : List LoanRecord) (a i : ℚ) (p : String)
    (ha : a ≠ 0) (hp : p ≠ "") (hi : 0 < i) :
    (apply_for_loan_data true existingApps (some a) (some p) (some i) false).status =
      "success" ∧
    (apply_for_loan_data true existingApps (some a) (some p) (some i)
        false).application.map (fun app => app.interestRate) =
      some (rateBand ((a * 12) / i)) ∧
    (apply_for_loan_data true existingApps (some a) (some p) (some i)
        false).application.map (fun app => app.estimatedMonthlyPayment) =
      some (round2 (amortMonthly a (rateBand ((a * 12) / i)) 60)) := by
  simp [apply_for_loan_data, pyTruthyQ, pyTruthyS, ha, hp, hi, hi.ne',
    rateBand, amortMonthly]

/-- Witness for C3 (the spec scenario): amount 20000, purpose `car`, income
60000 gives debt-to-income `(20000 * 12) / 60000 = 4`, in the top band, so
the rate is 10.5 percent. -/
theorem loan_pricing_witness :
    (20000 : ℚ) ≠ 0 ∧ "car" ≠ "" ∧ (0 : ℚ) < 60000 ∧
    ((20000 : ℚ) * 12) / 60000 = 4 ∧ rateBand 4 = 105/10 ∧
    (apply_for_loan_data true [] (some 20000) (some "car") (some 60000)
        false).status = "success" ∧
    (apply_for_loan_data true [] (some 20000) (some "car") (some 60000)
        false).application.map (fun app => app.interestRate) = some (105/10) := by
  have h := loan_pricing [] 20000 60000 "car" (by norm_num) (by decide) (by norm_num)
  refine ⟨by norm_num, by decide, by norm_num, by norm_num, by norm_num [rateBand], h.1, ?_⟩
  rw [h.2.1]
  norm_num [rateBand]

/-! ## Agent session state (src/core/agent.py)

The session-state document manipulated by `ConversationalAgent` is modelled
as a record of the reserved fields; `none` is an absent key.  Handlers read
the stored document, mutate their in-memory copy (a Python dict) and call
`update_state` with the whole copy; because `update_state` merges the copy
over the freshly read stored document, a key `del`eted from the copy is NOT
removed from the store.  `mergeWrite stored local` models such a
whole-document write: `Option` fields resurrect from the store when the
local copy dropped them, and `suspended_processes` (written whenever
present, never deleted) takes the local value. -/

/-- A `multi_step_process` record.  The `type`, `current_step` and
`next_step` entries are written from `.get` reads and can be absent. -/
structure MultiStepProcess where
  type : Option String
  currentStep : Option String
  collectedData : CollectedData
  nextStep : Option String := none
  isNewApplication : Bool := false
deriving DecidableEq

/-- A `pending_action` record; `options` and `args` are display payloads
not modelled. -/
structure PendingAction where
  tool : String
  step : Option String := none
  processType : Option String := none
deriving DecidableEq

/-- A suspended-process snapshot appended by
`_save_current_process_on_context_switch`; the wall-clock `timestamp` entry
is not modelled. -/
structure SuspendedProcess where
  context : String
  multiStepProcess : MultiStepProcess
  originalContext : Option String
  completionPercentage : ℚ
deriving DecidableEq

/-- The transient `loan_resume_choice` record. -/
structure LoanResumeChoice where
  suspendedProcess : MultiStepProcess
  messageShown : Bool
deriving DecidableEq

/-- The `last_completed_action` stamp (its `timestamp` is not modelled). -/
structure CompletedAction where
  type : String
  applicationId : Option Nat
deriving DecidableEq

/-- The session-state document as the agent uses it. -/
structure SessionState where
  multiStepProcess : Option MultiStepProcess := none
  pendingAction : Option PendingAction := none
  suspendedProcesses : List SuspendedProcess := []
  loanResumeChoice : Option LoanResumeChoice := none
  contextSwitched : Option Bool := none
  lastContextSwitch : Option String := none
  lastCompletedAction : Option CompletedAction := none
deriving DecidableEq

/-- `state_manager.update_state(session_id, current_state)` where
`current_state` is the handler's whole working copy of `stored`: each key
present in the copy overrides the store, and a key `del`eted from the copy
keeps its stored value. -/
def mergeWrite (stored loc : SessionState) : SessionState :=
  { multiStepProcess := loc.multiStepProcess.orElse fun _ => stored.multiStepProcess,
    pendingAction := loc.pendingAction.orElse fun _ => stored.pendingAction,
    suspendedProcesses := loc.suspendedProcesses,
    loanResumeChoice := loc.loanResumeChoice.orElse fun _ => stored.loanResumeChoice,
    contextSwitched := loc.contextSwitched.orElse fun _ => stored.contextSwitched,
    lastContextSwitch := loc.lastContextSwitch.orElse fun _ => stored.lastContextSwitch,
    lastCompletedAction := loc.lastCompletedAction.orElse fun _ => stored.lastCompletedAction }

/-- `_calculate_process_completion`: filled slots over 3 total, as a
percentage, for loan applications; 0 otherwise. -/
def calculate_process_completion (p : MultiStepProcess) : ℚ :=
  if p.type == some "loan_application" then
    let completedSteps : ℚ :=
      (if p.collectedData.amount.isSome then 1 else 0) +
      (if p.collectedData.purpose.isSome then 1 else 0) +
      (if p.collectedData.income.isSome then 1 else 0)
    completedSteps / 3 * 100
  else 0

/-- `_save_current_process_on_context_switch(session_id, new_context)`. -/
def save_current_process_on_context_switch (stored : SessionState)
    (newContext : String) : SessionState :=
  match stored.multiStepProcess with
  | none => stored
  | some p =>
    mergeWrite stored
      { stored with
        suspendedProcesses := stored.suspendedProcesses ++
          [{ context := newContext, multiStepProcess := p,
             originalContext := p.type,
             completionPercentage := calculate_process_completion p }],
        contextSwitched := some true,
        lastContextSwitch := some newContext }

/-- C9: suspending on a context switch does not deactivate the process — a
snapshot is appended to `suspended_processes`, `context_switched` and
`last_context_switch` are set, and `multi_step_process` itself is left in
place, so the state then holds both the active process and its snapshot. -/
theorem save_on_context_switch_keeps_process (stored : SessionState)
    (newContext : String) (p : MultiStepProcess)
    (hp : stored.multiStepProcess = some p) :
    (save_current_process_on_context_switch stored newContext).suspendedProcesses =
      stored.suspendedProcesses ++
        [{ context := newContext, multiStepProcess := p, originalContext := p.type,
           completionPercentage := calculate_process_completion p }] ∧
    (save_current_process_on_context_switch stored newContext).contextSwitched =
      some true ∧
    (save_current_process_on_context_switch stored newContext).lastContextSwitch =
      some newContext ∧
    (save_current_process_on_context_switch stored newContext).multiStepProcess =
      some p := by
  simp [save_current_process_on_context_switch, hp, mergeWrite, Option.orElse]

/-- A loan application at step `purpose` with only the amount filled. -/
def demoLoanProcess : MultiStepProcess :=
  { type := some "loan_application", currentStep := some "purpose",
    collectedData := { amount := some 15000 } }

/-- Witness for C9: suspending a session holding `demoLoanProcess` for a
balance query appends its snapshot and keeps the process active. -/
theorem save_on_context_switch_keeps_process_witness :
    ({ multiStepProcess := some demoLoanProcess } : SessionState).multiStepProcess =
      some demoLoanProcess ∧
    (save_current_process_on_context_switch
        { multiStepProcess := some demoLoanProcess } "balance").suspendedProcesses =
      [{ context := "balance", multiStepProcess := demoLoanProcess,
         originalContext := some "loan_application", completionPercentage := 100/3 }] ∧
    (save_current_process_on_context_switch
        { multiStepProcess := some demoLoanProcess } "balance").multiStepProcess =
      some demoLoanProcess := by
  have h := save_on_context_switch_keeps_process
    { multiStepProcess := some demoLoanProcess } "balance" demoLoanProcess rfl
  refine ⟨rfl, ?_, h.2.2.2⟩
  rw [h.1]
  norm_num [demoLoanProcess, calculate_process_completion]

/-- The handlers `_handle_pending_actions` can dispatch to. -/
inductive SelectionHandler where
  | cardManagementSelection
  | newCardApplicationSelection
  | cardApplicationSelection
  | limitModificationSelection
  | cardBlockingSelection
deriving DecidableEq

/-- `_handle_pending_actions`: dispatch on `pending_action.process_type`,
with the unrecognized-type fallback. -/
def handle_pending_actions (pendingAction : PendingAction) : SelectionHandler :=
  let actionType := pendingAction.processType
  if actionType == some "card_management" then .cardManagementSelection
  else if actionType == some "new_card_application" then .newCardApplicationSelection
  else if actionType == some "card_application" then .cardApplicationSelection
  else if actionType == some "limit_modification" then .limitModificationSelection
  else if actionType == some "card_blocking" then .cardBlockingSelection
  else .cardBlockingSelection

/-- C8: a `pending_action` whose `process_type` is not one of the five
recognized tags is dispatched to the card-blocking selection handler — the
silent defensive fallback — rather than an error path, and the dispatch
itself clears no state. -/
theorem unrecognized_pending_action_falls_back (pa : PendingAction)
    (h1 : pa.processType ≠ some "card_management")
    (h2 : pa.processType ≠ some "new_card_application")
    (h3 : pa.processType ≠ some "card_application")
    (h4 : pa.processType ≠ some "limit_modification")
    (h5 : pa.processType ≠ some "card_blocking") :
    handle_pending_actions pa = .cardBlockingSelection := by
  simp [handle_pending_actions, h1, h2, h3, h4, h5]

/-- Witness for C8: a stale `pending_action` tagged `mystery_flow` lands in
the card-blocking selection handler. -/
theorem unrecognized_pending_action_falls_back_witness :
    handle_pending_actions { tool := "old", processType := some "mystery_flow" } =
      .cardBlockingSelection :=
  unrecognized_pending_action_falls_back
    { tool := "old", processType := some "mystery_flow" }
    (by decide) (by decide) (by decide) (by decide) (by decide)

/-! ## String utilities

Python substring tests (`phrase in message_lower`), `str.lower`, `str.strip`
and the three numeric regexes of src/core/agent.py are modelled over
`List Char`.  Each matcher is deterministic: the regexes involved never
need backtracking (the greedy run of `[0-9,]+` cannot donate characters to
`\.` or to the anchors, and the income keyword alternatives start with
distinct letters). -/

/-- `listStarts needle hay`: `needle` is an initial segment of `hay`. -/
def listStarts : List Char → List Char → Bool
  | [], _ => true
  | _ :: _, [] => false
  | a :: as, b :: bs => a == b && listStarts as bs

/-- Python `needle in hay` on character lists. -/
def isSubstr (needle : List Char) : List Char → Bool
  | [] => needle.isEmpty
  | c :: rest => listStarts needle (c :: rest) || isSubstr needle rest

/-- Python `any(phrase in hay for phrase in phrases)`. -/
def containsAny (hay : String) (phrases : List String) : Bool :=
  phrases.any (fun p => isSubstr p.data hay.data)

/-- Python `str.lower` (the messages involved are ASCII). -/
def pyLower (s : String) : String := ⟨s.data.map Char.toLower⟩

/-- Python `str.strip`. -/
def pyStrip (s : String) : String :=
  ⟨((s.data.dropWhile Char.isWhitespace).reverse.dropWhile Char.isWhitespace).reverse⟩

/-- A character of the regex class `[0-9,]`. -/
def isNumChar (c : Char) : Bool := c.isDigit || c == ','

/-- The optional `(?:\.[0-9]{2})?` tail right after a `[0-9,]+` run. -/
def fracTail (rest : List Char) : List Char :=
  match rest with
  | '.' :: d1 :: d2 :: _ => if d1.isDigit && d2.isDigit then ['.', d1, d2] else []
  | _ => []

/-- `re.search(r'\$?([0-9,]+(?:\.[0-9]{2})?)', msg)`, returning group 1: the
first maximal `[0-9,]` run with its optional two-decimal tail (a leading `$`
is outside the group, so scanning for the first `[0-9,]` character is
equivalent). -/
def amountSearch : List Char → Option (List Char)
  | [] => none
  | c :: rest =>
    if isNumChar c then
      some ((c :: rest).takeWhile isNumChar ++ fracTail ((c :: rest).dropWhile isNumChar))
    else amountSearch rest

/-- Consume the optional leading `\$?` (forced when the head is `$`, since
`[0-9,]+` cannot match `$`). -/
def stripDollar (cs : List Char) : List Char :=
  match cs with
  | c :: r => if c = '$' then r else c :: r
  | [] => []

/-- `re.match(r'^\$?[0-9,]+(?:\.[0-9]{2})?$', cs)`: the whole string is a
bare numeric token. -/
def bareNumeric (cs : List Char) : Bool :=
  let cs1 := stripDollar cs
  let run := cs1.takeWhile isNumChar
  let rest := cs1.dropWhile isNumChar
  !run.isEmpty &&
    (rest.isEmpty ||
      (match rest with
       | ['.', d1, d2] => d1.isDigit && d2.isDigit
       | _ => false))

/-- The alternation `(?:income|earn|salary|make)` anchored at the head;
returns the characters after the keyword.  The alternatives start with
distinct letters, so at most one branch can match. -/
def keywordRest (cs : List Char) : Option (List Char) :=
  if listStarts "income".data cs then some (cs.drop 6)
  else if listStarts "earn".data cs then some (cs.drop 4)
  else if listStarts "salary".data cs then some (cs.drop 6)
  else if listStarts "make".data cs then some (cs.drop 4)
  else none

/-- `\$?([0-9,]+(?:\.[0-9]{2})?)` anchored at the head (group 1). -/
def numHere (cs : List Char) : Option (List Char) :=
  match cs with
  | c :: _ =>
    if isNumChar c then
      some (cs.takeWhile isNumChar ++ fracTail (cs.dropWhile isNumChar))
    else none
  | [] => none

/-- `\$?` then the group, anchored at the head. -/
def numAt (cs : List Char) : Option (List Char) :=
  match cs with
  | '$' :: rest => numHere rest
  | _ => numHere cs

/-- The lazy `.*?\$?([0-9,]+...)` continuation: the nearest following number
token, not crossing a newline (`.` does not match `\n`). -/
def lazyNum : List Char → Option (List Char)
  | [] => none
  | c :: rest =>
    match numAt (c :: rest) with
    | some t => some t
    | none => if c == '\n' then none else lazyNum rest

/-- `re.search(r'(?:income|earn|salary|make).*?\$?([0-9,]+(?:\.[0-9]{2})?)',
msgLower)`: leftmost keyword start whose lazy continuation finds a number. -/
def incomeSearch : List Char → Option (List Char)
  | [] => none
  | c :: rest =>
    match keywordRest (c :: rest) with
    | some after =>
      match lazyNum after with
      | some t => some t
      | none => incomeSearch rest
    | none => incomeSearch rest

/-- The numeric value of a digit string (most significant first). -/
def digitsValN (ds : List Char) : Nat :=
  ds.foldl (fun acc c => acc * 10 + (c.toNat - 48)) 0

/-- Python `float` on the digit-and-dot strings the regexes can produce
(`none` models the `ValueError` on a digitless string). -/
def parseFloatQ (cs : List Char) : Option ℚ :=
  let intPart := cs.takeWhile Char.isDigit
  let rest := cs.dropWhile Char.isDigit
  match rest with
  | [] => if intPart.isEmpty then none else some ((digitsValN intPart : ℕ) : ℚ)
  | '.' :: frac =>
    if frac.all Char.isDigit && !(intPart.isEmpty && frac.isEmpty) then
      some (((digitsValN intPart : ℕ) : ℚ) +
        ((digitsValN frac : ℕ) : ℚ) / ((10 : ℚ) ^ frac.length))
    else none
  | _ => none

/-- `float(group.replace(',', ''))` guarded by `try`/`except`. -/
def parseMoney (t : List Char) : Option ℚ :=
  parseFloatQ (t.filter (fun c => !(c == ',')))

/-- `float(message.strip().replace('$', '').replace(',', ''))` — unguarded
in the source; a `none` result is an uncaught `ValueError`. -/
def parseBare (msg : String) : Option ℚ :=
  parseFloatQ ((pyStrip msg).data.filter (fun c => !(c == '$' || c == ',')))

/-! ## Intent router (src/core/agent.py, process_turn) -/

/-- The handlers `process_turn` can route a message to, in cascade order;
`llmFallback` is the model-driven path after all direct triggers fail. -/
inductive Route where
  | accountDetails
  | balance
  | transactions
  | cardManagement
  | newCardApplication
  | directCardBlocking
  | cardList
  | loanListing
  | loanProcess
  | pendingActions
  | multiStep
  | llmFallback
deriving DecidableEq

def accountDetailPhrases : List String :=
  ["account details", "account information", "complete account", "full account",
   "account overview", "my account details", "show account details"]

def balancePhrases : List String :=
  ["balance", "account balance", "my balance", "show balance",
   "what\x27s my balance", "whats my balance"]

def transactionPhrases : List String :=
  ["transactions", "recent transactions", "mini statement", "statement",
   "transaction history"]

def cardManagementPhrases : List String :=
  ["card management", "manage cards", "card services"]

def newCardPhrases : List String :=
  ["apply for new card", "new card application", "apply new card", "get new card"]

def blockCardPhrases : List String := ["block card", "block my card"]

def cardListPhrases : List String := ["my cards", "show cards", "list cards"]

def loanListingPhrases : List String :=
  ["list loans", "list all loans", "show loans", "show all loans", "my loans",
   "list the loans", "show the loans", "loans i have applied", "loan applications",
   "applied for loans", "show my loan applications", "list my loan applications",
   "what loans do i have", "all my loans", "existing loans"]

def loanListingExcludePhrases : List String := ["apply", "new loan", "apply for"]

def loanQueryPhrases : List String :=
  ["loan", "apply for loan", "new loan", "loan application", "borrow money",
   "need money", "apply loan"]

/-- Whether `loan_process.get('type') == 'loan_application'` holds for the
state read at the top of `process_turn`. -/
def loanProcessActive (st : SessionState) : Bool :=
  (st.multiStepProcess.bind (fun p => p.type)) == some "loan_application"

/-- The priority cascade of `process_turn`: the first matching rule wins and
short-circuits all later rules. -/
def process_turn_route (msg : String) (st : SessionState) : Route :=
  if containsAny (pyLower msg) accountDetailPhrases then .accountDetails
  else if containsAny (pyLower msg) balancePhrases then .balance
  else if containsAny (pyLower msg) transactionPhrases then .transactions
  else if containsAny (pyLower msg) cardManagementPhrases then .cardManagement
  else if containsAny (pyLower msg) newCardPhrases then .newCardApplication
  else if containsAny (pyLower msg) blockCardPhrases &&
      !containsAny (pyLower msg) ["card management", "manage cards"] then
    .directCardBlocking
  else if containsAny (pyLower msg) cardListPhrases then .cardList
  else if containsAny (pyLower msg) loanListingPhrases &&
      !containsAny (pyLower msg) loanListingExcludePhrases then .loanListing
  else if loanProcessActive st || containsAny (pyLower msg) loanQueryPhrases ||
      (loanProcessActive st && bareNumeric (pyStrip msg).data) then .loanProcess
  else if st.pendingAction.isSome then .pendingActions
  else if st.multiStepProcess.isSome then .multiStep
  else .llmFallback

/-- The lower half of the cascade (rules after direct card blocking),
abstracted over its Boolean guards. -/
def routeTail (g7 g8 g8e g9 g9b g9c gp gm : Bool) : Route :=
  if g7 then .cardList
  else if g8 && !g8e then .loanListing
  else if g9 || g9b || (g9 && g9c) then .loanProcess
  else if gp then .pendingActions
  else if gm then .multiStep
  else .llmFallback

/-- The cascade of `process_turn` abstracted over its Boolean guards, for
exhaustive reasoning; `process_turn_route_eq_guards` ties it to the router. -/
def routeFromGuards (g1 g2 g3 g4 g5 gB gE g7 g8 g8e g9 g9b g9c gp gm : Bool) : Route :=
  if g1 then .accountDetails
  else if g2 then .balance
  else if g3 then .transactions
  else if g4 then .cardManagement
  else if g5 then .newCardApplication
  else if gB && !gE then .directCardBlocking
  else routeTail g7 g8 g8e g9 g9b g9c gp gm

theorem routeTail_range : ∀ g7 g8 g8e g9 g9b g9c gp gm : Bool,
    routeTail g7 g8 g8e g9 g9b g9c gp gm ≠ Route.directCardBlocking ∧
    routeTail g7 g8 g8e g9 g9b g9c gp gm ≠ Route.cardManagement := by decide

theorem process_turn_route_eq_guards (msg : String) (st : SessionState) :
    process_turn_route msg st = routeFromGuards
      (containsAny (pyLower msg) accountDetailPhrases)
      (containsAny (pyLower msg) balancePhrases)
      (containsAny (pyLower msg) transactionPhrases)
      (containsAny (pyLower msg) cardManagementPhrases)
      (containsAny (pyLower msg) newCardPhrases)
      (containsAny (pyLower msg) blockCardPhrases)
      (containsAny (pyLower msg) ["card management", "manage cards"])
      (containsAny (pyLower msg) cardListPhrases)
      (containsAny (pyLower msg) loanListingPhrases)
      (containsAny (pyLower msg) loanListingExcludePhrases)
      (loanProcessActive st)
      (containsAny (pyLower msg) loanQueryPhrases)
      (bareNumeric (pyStrip msg).data)
      st.pendingAction.isSome
      st.multiStepProcess.isSome := rfl

theorem routeFromGuards_disambiguation :
    ∀ g1 g2 g3 g4 g5 gB gE g7 g8 g8e g9 g9b g9c gp gm : Bool,
    (gE = true →
      routeFromGuards g1 g2 g3 g4 g5 gB gE g7 g8 g8e g9 g9b g9c gp gm ≠
        Route.directCardBlocking) ∧
    (g4 = false →
      routeFromGuards g1 g2 g3 g4 g5 gB gE g7 g8 g8e g9 g9b g9c gp gm ≠
        Route.cardManagement) ∧
    (g1 = true →
      routeFromGuards g1 g2 g3 g4 g5 gB gE g7 g8 g8e g9 g9b g9c gp gm =
        Route.accountDetails) := by
  intro g1 g2 g3 g4 g5 gB gE g7 g8 g8e g9 g9b g9c gp gm
  have ht := routeTail_range g7 g8 g8e g9 g9b g9c gp gm
  unfold routeFromGuards
  cases g1 <;> cases g2 <;> cases g3 <;> cases g4 <;> cases g5 <;> cases gB <;>
    cases gE <;> simp_all

/-- C4 counterexample: the message `block my card services` contains
`block my card` and neither `card management` nor `manage cards`, yet it is
routed to the card-management menu handler, because the menu trigger list
also contains the phrase `card services`. -/
theorem card_services_message_reaches_menu :
    isSubstr "block my card".data (pyLower "block my card services").data = true ∧
    isSubstr "card management".data (pyLower "block my card services").data = false ∧
    isSubstr "manage cards".data (pyLower "block my card services").data = false ∧
    process_turn_route "block my card services" {} = Route.cardManagement := by
  decide

/-- C4 (amended): a message containing `card management` is never routed to
the direct card-blocking handler; a message containing `block my card` but
none of `card management`, `manage cards`, `card services` (the third menu
trigger, which the original claim omitted) is never routed to the
card-management menu; and the cascade short-circuits: any message matching
an account-details phrase takes that first rule regardless of later ones. -/
theorem router_disambiguation (msg : String) (st : SessionState) :
    (isSubstr "card management".data (pyLower msg).data = true →
      process_turn_route msg st ≠ Route.directCardBlocking) ∧
    (isSubstr "block my card".data (pyLower msg).data = true →
      isSubstr "card management".data (pyLower msg).data = false →
      isSubstr "manage cards".data (pyLower msg).data = false →
      isSubstr "card services".data (pyLower msg).data = false →
      process_turn_route msg st ≠ Route.cardManagement) ∧
    (containsAny (pyLower msg) accountDetailPhrases = true →
      process_turn_route msg st = Route.accountDetails) := by
  have heq := process_turn_route_eq_guards msg st
  have hg := routeFromGuards_disambiguation
    (containsAny (pyLower msg) accountDetailPhrases)
    (containsAny (pyLower msg) balancePhrases)
    (containsAny (pyLower msg) transactionPhrases)
    (containsAny (pyLower msg) cardManagementPhrases)
    (containsAny (pyLower msg) newCardPhrases)
    (containsAny (pyLower msg) blockCardPhrases)
    (containsAny (pyLower msg) ["card management", "manage cards"])
    (containsAny (pyLower msg) cardListPhrases)
    (containsAny (pyLower msg) loanListingPhrases)
    (containsAny (pyLower msg) loanListingExcludePhrases)
    (loanProcessActive st)
    (containsAny (pyLower msg) loanQueryPhrases)
    (bareNumeric (pyStrip msg).data)
    st.pendingAction.isSome
    st.multiStepProcess.isSome
  refine ⟨?_, ?_, ?_⟩
  · intro h
    have hblock : containsAny (pyLower msg) ["card management", "manage cards"] = true := by
      simp only [containsAny, List.any_cons, List.any_nil, Bool.or_false]
      rw [h, Bool.true_or]
    rw [heq]
    exact hg.1 hblock
  · intro _ h2 h3 h4
    have hmenu : containsAny (pyLower msg) cardManagementPhrases = false := by
      simp only [containsAny, cardManagementPhrases, List.any_cons, List.any_nil,
        Bool.or_false]
      rw [h2, h3, h4]
      rfl
    rw [heq]
    exact hg.2.1 hmenu
  · intro h
    rw [heq]
    exact hg.2.2 h

/-- Witness for C4 (amended): `block my card` alone goes to the direct
card-blocking handler, not the menu, and `card management` goes to the
menu. -/
theorem router_disambiguation_witness :
    process_turn_route "block my card" {} ≠ Route.cardManagement ∧
    process_turn_route "block my card" {} = Route.directCardBlocking ∧
    process_turn_route "card management" {} ≠ Route.directCardBlocking ∧
    process_turn_route "card management" {} = Route.cardManagement := by
  refine ⟨(router_disambiguation "block my card" {}).2.1 (by decide) (by decide)
    (by decide) (by decide), by decide,
    (router_disambiguation "card management" {}).1 (by decide), by decide⟩

/-! ## Loan-process extraction (src/core/agent.py, _handle_loan_process 736-803)

Each turn inside the loan flow runs three extraction passes over the raw
message (amount regex search, purpose keyword lookup, income regex search),
applies the bare-numeric-token disambiguation for the step in progress, and
merges the results over `collected_data` with Python `or`. -/

/-- The keyword-to-category purpose table, in Python dict insertion order;
the first keyword contained in the lower-cased message wins. -/
def purposeKeywords : List (String × String) :=
  [("home", "Home Improvement"), ("house", "Home Improvement"),
   ("renovation", "Home Renovation"), ("car", "Auto Purchase"),
   ("vehicle", "Auto Purchase"), ("auto", "Auto Purchase"),
   ("debt", "Debt Consolidation"), ("consolidation", "Debt Consolidation"),
   ("medical", "Medical Expenses"), ("health", "Medical Expenses"),
   ("education", "Education"), ("school", "Education"),
   ("college", "Education"), ("business", "Business"),
   ("wedding", "Wedding"), ("marriage", "Wedding"),
   ("vacation", "Vacation"), ("travel", "Vacation"),
   ("personal", "Personal"), ("emergency", "Emergency Fund")]

/-- The purpose extraction pass over the lower-cased message. -/
def extractPurpose (msgLower : String) : Option String :=
  (purposeKeywords.find? (fun kv => isSubstr kv.1.data msgLower.data)).map
    (fun kv => kv.2)

/-- Python `extracted or collected` on amounts (`None` and `0.0` falsy). -/
def pyOrQ (a b : Option ℚ) : Option ℚ :=
  match a with
  | some v => if v = 0 then b else some v
  | none => b

/-- Python `extracted or collected` on strings (`None` and `""` falsy). -/
def pyOrS (a b : Option String) : Option String :=
  match a with
  | some s => if s = "" then b else some s
  | none => b

/-- Python `not extracted_income` (`None` and `0.0` are falsy). -/
def pyFalsyQ (a : Option ℚ) : Bool :=
  match a with
  | some v => if v = 0 then true else false
  | none => true

/-- The extraction-and-merge phase of `_handle_loan_process`: returns the
`(current_amount, current_purpose, current_income)` triple handed to
`apply_for_loan`; `none` models the uncaught `ValueError` of the unguarded
`float` call on a digitless bare token. -/
def extractAndMerge (msg : String) (loanProc : Option MultiStepProcess) :
    Option (Option ℚ × Option String × Option ℚ) :=
  let extractedAmount0 := (amountSearch msg.data).bind parseMoney
  let extractedPurpose := extractPurpose (pyLower msg)
  let extractedIncome0 := (incomeSearch (pyLower msg).data).bind parseMoney
  let isNumericalResponse := bareNumeric (pyStrip msg).data
  let stepPair : Option (Option ℚ × Option ℚ) :=
    if (loanProc.bind (fun pr => pr.type)) == some "loan_application" &&
        isNumericalResponse && pyFalsyQ extractedIncome0 then
      if (loanProc.bind (fun pr => pr.currentStep)) == some "amount" then
        (parseBare msg).map (fun v => (some v, extractedIncome0))
      else if (loanProc.bind (fun pr => pr.currentStep)) == some "income" then
        (parseBare msg).map (fun v => (extractedAmount0, some v))
      else some (extractedAmount0, extractedIncome0)
    else some (extractedAmount0, extractedIncome0)
  match stepPair with
  | none => none
  | some (extractedAmount, extractedIncome) =>
    let collected := (loanProc.map (fun pr => pr.collectedData)).getD {}
    some (pyOrQ extractedAmount collected.amount,
          pyOrS extractedPurpose collected.purpose,
          pyOrQ extractedIncome collected.income)

/-- A loan application at step `income` with amount 20000 and purpose
already collected. -/
def c5proc : MultiStepProcess :=
  { type := some "loan_application", currentStep := some "income",
    collectedData := { amount := some 20000, purpose := some "Auto Purchase" } }

/-- C5 counterexample: at step `income` with amount 20000 collected, the
bare token `15000` is assigned to income, but the generic amount pass also
captures it, so the merged amount for this turn is 15000 — the previously
collected amount is not preserved. -/
theorem bare_numeric_overwrites_amount :
    extractAndMerge "15000" (some c5proc) =
      some (some 15000, some "Auto Purchase", some 15000) ∧
    (extractAndMerge "15000" (some c5proc)).map (fun t => t.1) ≠
      some (some 20000) := by decide

/-! ### Generic facts about all-digit messages, for the amended C5 claim -/

theorem digit_char_props : ∀ c ∈ ("0123456789".data),
    c.isDigit = true ∧ Char.isWhitespace c = false ∧ c.toLower = c ∧
    (c == '$') = false ∧ (c == ',') = false ∧ c ≠ '$' := by decide

theorem beq_false_of_isDigit (a c : Char) (ha : a.isDigit = false)
    (hc : c.isDigit = true) : (a == c) = false := by
  cases h : a == c
  · rfl
  · have heq : a = c := eq_of_beq h
    rw [heq, hc] at ha
    cases ha

theorem isSubstr_false_digits (needle ds : List Char) (h1 : needle ≠ [])
    (h2 : (needle.headD 'a').isDigit = false)
    (hd : ∀ c ∈ ds, c.isDigit = true) : isSubstr needle ds = false := by
  obtain ⟨a, as, rfl⟩ := List.exists_cons_of_ne_nil h1
  simp only [List.headD_cons] at h2
  induction ds with
  | nil => rfl
  | cons c rest ih =>
    have hx := beq_false_of_isDigit a c h2 (hd c (List.mem_cons_self c rest))
    simp [isSubstr, listStarts, hx,
      ih (fun x hxm => hd x (List.mem_cons_of_mem c hxm))]

theorem incomeSearch_none_digits (ds : List Char)
    (hd : ∀ c ∈ ds, c.isDigit = true) : incomeSearch ds = none := by
  induction ds with
  | nil => rfl
  | cons c rest ih =>
    have hc := hd c (List.mem_cons_self c rest)
    have hkw : keywordRest (c :: rest) = none := by
      have hi := beq_false_of_isDigit 'i' c (by decide) hc
      have he := beq_false_of_isDigit 'e' c (by decide) hc
      have hs := beq_false_of_isDigit 's' c (by decide) hc
      have hm := beq_false_of_isDigit 'm' c (by decide) hc
      rw [keywordRest,
        show "income".data = 'i' :: "ncome".data from rfl,
        show "earn".data = 'e' :: "arn".data from rfl,
        show "salary".data = 's' :: "alary".data from rfl,
        show "make".data = 'm' :: "ake".data from rfl]
      simp [listStarts, hi, he, hs, hm]
    rw [incomeSearch, hkw]
    exact ih (fun x hxm => hd x (List.mem_cons_of_mem c hxm))

theorem extractPurpose_none_digits (ds : List Char)
    (hd : ∀ c ∈ ds, c.isDigit = true) : extractPurpose ⟨ds⟩ = none := by
  have hfind : purposeKeywords.find?
      (fun kv => isSubstr kv.1.data (String.mk ds).data) = none := by
    rw [List.find?_eq_none]
    intro kv hkv
    fin_cases hkv <;>
      · simp only [Bool.not_eq_true]
        exact isSubstr_false_digits _ ds (by decide) (by decide) hd
  simp [extractPurpose, hfind]

theorem digits_list_facts (ds : List Char)
    (hmem : ∀ c ∈ ds, c ∈ ("0123456789".data)) :
    ds.map Char.toLower = ds ∧
    ds.dropWhile Char.isWhitespace = ds ∧
    ds.takeWhile isNumChar = ds ∧ ds.dropWhile isNumChar = [] ∧
    ds.takeWhile Char.isDigit = ds ∧ ds.dropWhile Char.isDigit = [] ∧
    ds.filter (fun c => !(c == '$' || c == ',')) = ds ∧
    ds.filter (fun c => !(c == ',')) = ds := by
  refine ⟨?_, ?_, ?_, ?_, ?_, ?_, ?_, ?_⟩
  · induction ds with
    | nil => rfl
    | cons c rest ih =>
      have h := digit_char_props c (hmem c (List.mem_cons_self c rest))
      simp [h.2.2.1, ih (fun x hx => hmem x (List.mem_cons_of_mem c hx))]
  · cases ds with
    | nil => rfl
    | cons c rest =>
      have h := digit_char_props c (hmem c (List.mem_cons_self c rest))
      simp [List.dropWhile_cons, h.2.1]
  · rw [List.takeWhile_eq_self_iff]
    intro c hc
    simp [isNumChar, (digit_char_props c (hmem c hc)).1]
  · rw [List.dropWhile_eq_nil_iff]
    intro c hc
    simp [isNumChar, (digit_char_props c (hmem c hc)).1]
  · rw [List.takeWhile_eq_self_iff]
    intro c hc
    exact (digit_char_props c (hmem c hc)).1
  · rw [List.dropWhile_eq_nil_iff]
    intro c hc
    exact (digit_char_props c (hmem c hc)).1
  · rw [List.filter_eq_self]
    intro c hc
    have h := digit_char_props c (hmem c hc)
    simp [h.2.2.2.1, h.2.2.2.2.1]
  · rw [List.filter_eq_self]
    intro c hc
    simp [(digit_char_props c (hmem c hc)).2.2.2.2.1]

/-- C5 (amended): at step `income` of an active loan application with an
amount already collected, a bare all-digit token with nonzero value is
assigned to the income slot, but the generic amount pass captures the same
token, so the merged amount for the turn is the token's value as well — the
previously collected amount is used only if it happens to equal the token.
The purpose slot is untouched. -/
theorem bare_numeric_at_income_assigns_both (ds : List Char)
    (p : MultiStepProcess) (a : ℚ)
    (hds : ds ≠ []) (hmem : ∀ c ∈ ds, c ∈ ("0123456789".data))
    (hv : digitsValN ds ≠ 0)
    (htype : p.type = some "loan_application")
    (hstep : p.currentStep = some "income")
    (hamt : p.collectedData.amount = some a) :
    extractAndMerge ⟨ds⟩ (some p) =
      some (some ((digitsValN ds : ℕ) : ℚ), p.collectedData.purpose,
        some ((digitsValN ds : ℕ) : ℚ)) := by
  have hdig : ∀ c ∈ ds, c.isDigit = true :=
    fun c hc => (digit_char_props c (hmem c hc)).1
  obtain ⟨hlower, hdws, htn, hdn, htd, hdd, hfd, hfc⟩ := digits_list_facts ds hmem
  have hmemrev : ∀ c ∈ ds.reverse, c ∈ ("0123456789".data) := by
    intro c hc
    exact hmem c (List.mem_reverse.mp hc)
  have hdwsrev : ds.reverse.dropWhile Char.isWhitespace = ds.reverse :=
    (digits_list_facts ds.reverse hmemrev).2.1
  have hmsgL : pyLower ⟨ds⟩ = ⟨ds⟩ := by
    simp [pyLower, hlower]
  have hstrip : pyStrip ⟨ds⟩ = ⟨ds⟩ := by
    simp [pyStrip, hdws, hdwsrev]
  have hparse : parseFloatQ ds = some ((digitsValN ds : ℕ) : ℚ) := by
    rw [parseFloatQ]
    simp only [htd, hdd]
    simp [List.isEmpty_iff, hds]
  have hbare : bareNumeric ds = true := by
    obtain ⟨c, rest, rfl⟩ := List.exists_cons_of_ne_nil hds
    have h := digit_char_props c (hmem c (List.mem_cons_self c rest))
    rw [bareNumeric, stripDollar]
    simp only [if_neg h.2.2.2.2.2]
    simp [htn, hdn, List.isEmpty_iff, hds]
  have hAS : amountSearch ds = some ds := by
    obtain ⟨c, rest, rfl⟩ := List.exists_cons_of_ne_nil hds
    have h1 : isNumChar c = true := by
      simp [isNumChar, hdig c (List.mem_cons_self c rest)]
    rw [amountSearch]
    simp [h1, htn, hdn, fracTail]
  have hInc : incomeSearch ds = none := incomeSearch_none_digits ds hdig
  have hpur : extractPurpose ⟨ds⟩ = none := extractPurpose_none_digits ds hdig
  have hvQ : ((digitsValN ds : ℕ) : ℚ) ≠ 0 := Nat.cast_ne_zero.mpr hv
  rw [extractAndMerge]
  simp only [hmsgL, hstrip]
  rw [hAS, hInc, hpur]
  simp only [Option.bind_some, Option.bind_none, Option.some_bind, Option.none_bind,
    parseMoney, hfc, hparse, hbare, parseBare, hstrip, hfd]
  simp only [Option.bind, htype, hstep, pyFalsyQ]
  simp only [beq_self_eq_true, Bool.and_true, Bool.true_and, Bool.and_self,
    if_true]
  rw [if_neg (by decide : ¬((some "income" : Option String) == some "amount") = true)]
  simp [pyOrQ, pyOrS, hvQ]

/-- Witness for C5 (amended): the token `15000` at step `income` of
`c5proc` (collected amount 20000) is assigned to both slots. -/
theorem bare_numeric_at_income_assigns_both_witness :
    ("15000".data ≠ [] ∧ digitsValN "15000".data ≠ 0 ∧
      c5proc.collectedData.amount = some 20000) ∧
    extractAndMerge ⟨"15000".data⟩ (some c5proc) =
      some (some ((digitsValN "15000".data : ℕ) : ℚ), c5proc.collectedData.purpose,
        some ((digitsValN "15000".data : ℕ) : ℚ)) := by
  refine ⟨⟨by decide, by decide, rfl⟩, ?_⟩
  exact bare_numeric_at_income_assigns_both "15000".data c5proc 20000
    (by decide) (by decide) (by decide) rfl rfl rfl

/-! ## The loan-process handler (src/core/agent.py, _handle_loan_process)

The handler is transcribed as a chain: the suspended-loan resume offer
(lines 577-620), the `loan_resume_choice` dialogue (622-696), the explicit
new-loan restart (698-731), and the extraction-and-apply tail (733-853);
Python falls through from each block to the next when no `return` fires.
State writes pass the handler's whole working dict to `update_state`, so
each is a `mergeWrite`; a key `del`eted from the dict survives in the store
(noted where it happens).  Response texts and history writes are not
modelled; the `Option` result is `none` on the one uncaught `ValueError`. -/

def resumeRequestPhrases : List String :=
  ["apply new loan", "new loan", "apply loan", "continue loan", "resume loan"]

def startNewChoicePhrases : List String := ["start new", "new", "fresh", "different"]

def newLoanRequestPhrases : List String :=
  ["new loan", "apply for new loan", "another loan", "different loan",
   "start over", "fresh loan", "apply loan"]

/-- Lines 733-853: run the three extraction passes, merge over
`collected_data`, call `apply_for_loan`, and update the (re-read) stored
state: a continuation replaces `multi_step_process`; completion `del`etes it
from the working dict — which the merge-style write does not persist — and
stamps `last_completed_action`; errors leave the state untouched. -/
def loanProcessFinal (userExists : Bool) (existingApps : List LoanRecord)
    (stored : SessionState) (msg : String) (loanProc : Option MultiStepProcess) :
    Option SessionState :=
  match extractAndMerge msg loanProc with
  | none => none
  | some (currentAmount, currentPurpose, currentIncome) =>
    let res := apply_for_loan_data userExists existingApps currentAmount
      currentPurpose currentIncome false
    if res.status == "info" || res.status == "success" then
      if res.requiresContinuation then
        some (mergeWrite stored
          { stored with
            multiStepProcess := some
              { type := res.processType, currentStep := res.currentStep,
                collectedData := res.collectedData, nextStep := res.nextStep } })
      else if res.processComplete then
        some (mergeWrite stored
          { stored with
            multiStepProcess := none,
            lastCompletedAction := some
              { type := "loan_application",
                applicationId := res.application.map (fun app => app.applicationId) } })
      else some stored
    else some stored

/-- Lines 698-731: an explicit new-loan phrase while a loan process is
active (and no resume dialogue pending in the working dict) `del`etes the
active process from the working dict — a delete the merge-style write does
not persist — and calls `apply_for_loan(force_new)`; a non-info result
falls through to the extraction tail. -/
def loanProcessNewLoanCheck (userExists : Bool) (existingApps : List LoanRecord)
    (stored loc : SessionState) (msg : String) (loanProc : Option MultiStepProcess) :
    Option SessionState :=
  if containsAny (pyLower msg) newLoanRequestPhrases &&
      ((loanProc.bind (fun pr => pr.type)) == some "loan_application") &&
      loc.loanResumeChoice.isNone then
    let loc1 := { loc with multiStepProcess := none }
    let stored1 := mergeWrite stored loc1
    let res := apply_for_loan_data userExists existingApps none none none true
    if res.status == "info" || res.status == "success" then
      if res.requiresContinuation then
        some (mergeWrite stored1
          { loc1 with
            multiStepProcess := some
              { type := res.processType, currentStep := res.currentStep,
                collectedData := res.collectedData, nextStep := res.nextStep,
                isNewApplication := true } })
      else some stored1
    else loanProcessFinal userExists existingApps stored1 msg loanProc
  else loanProcessFinal userExists existingApps stored msg loanProc

/-- Lines 622-696: the `loan_resume_choice` dialogue.  `continue` restores
the snapshot and filters the suspended list (the `del` of
`loan_resume_choice` does not persist through the merge-style write);
a start-new phrase clears the suspended loans and forces a fresh
application; anything else re-prompts without touching state. -/
def loanProcessResumeChoice (userExists : Bool) (existingApps : List LoanRecord)
    (stored : SessionState) (msg : String) (loanProc : Option MultiStepProcess) :
    Option SessionState :=
  match stored.loanResumeChoice with
  | some lrc =>
    if lrc.messageShown then
      if isSubstr "continue".data (pyLower msg).data then
        some (mergeWrite stored
          { stored with
            multiStepProcess := some lrc.suspendedProcess,
            loanResumeChoice := none,
            suspendedProcesses := stored.suspendedProcesses.filter
              (fun sp => !(sp.multiStepProcess.type == some "loan_application")) })
      else if containsAny (pyLower msg) startNewChoicePhrases then
        let loc1 := { stored with
          loanResumeChoice := none,
          suspendedProcesses := stored.suspendedProcesses.filter
            (fun sp => !(sp.multiStepProcess.type == some "loan_application")) }
        let stored1 := mergeWrite stored loc1
        let res := apply_for_loan_data userExists existingApps none none none true
        if res.status == "info" || res.status == "success" then
          if res.requiresContinuation then
            some (mergeWrite stored1
              { loc1 with
                multiStepProcess := some
                  { type := res.processType, currentStep := res.currentStep,
                    collectedData := res.collectedData, nextStep := res.nextStep,
                    isNewApplication := true } })
          else some stored1
        else loanProcessNewLoanCheck userExists existingApps stored1 loc1 msg loanProc
      else some stored
    else loanProcessNewLoanCheck userExists existingApps stored stored msg loanProc
  | none => loanProcessNewLoanCheck userExists existingApps stored stored msg loanProc

/-- `_handle_loan_process(user_id, session_id, message, loan_process)`:
lines 577-620 offer to resume the most recent suspended loan when the user
signals loan intent while no process is active; with zero completion, or
when the offer does not apply, control falls through to the later blocks. -/
def handle_loan_process (userExists : Bool) (existingApps : List LoanRecord)
    (stored : SessionState) (msg : String) (loanProc : Option MultiStepProcess) :
    Option SessionState :=
  match (stored.suspendedProcesses.reverse).find?
      (fun sp => sp.multiStepProcess.type == some "loan_application") with
  | some sl =>
    if containsAny (pyLower msg) resumeRequestPhrases &&
        !(pyTruthyS (loanProc.bind (fun pr => pr.type))) then
      if sl.completionPercentage > 0 then
        some (mergeWrite stored
          { stored with
            loanResumeChoice := some
              { suspendedProcess := sl.multiStepProcess, messageShown := true } })
      else loanProcessResumeChoice userExists existingApps stored msg loanProc
    else loanProcessResumeChoice userExists existingApps stored msg loanProc
  | none => loanProcessResumeChoice userExists existingApps stored msg loanProc

/-- The session-state effect of `_handle_balance_query`: it saves any
active process under the context `balance` before answering; the rest of
the handler reads banking data and appends to history only. -/
def handle_balance_query_state (stored : SessionState) : SessionState :=
  save_current_process_on_context_switch stored "balance"

/-! ### The C2 suspension round-trip scenario

A fresh session with no stored loan applications: start a loan
application, fill only the amount with the bare token `15000`, switch to a
balance query, then say `continue loan`. -/

def c2state0 : SessionState := {}

def c2state1 : Option SessionState :=
  handle_loan_process true [] c2state0 "i want to apply for a loan"
    c2state0.multiStepProcess

def c2state2 : Option SessionState :=
  c2state1.bind (fun s => handle_loan_process true [] s "15000" s.multiStepProcess)

def c2state3 : Option SessionState := c2state2.map handle_balance_query_state

def c2state4 : Option SessionState :=
  c2state3.bind (fun s => handle_loan_process true [] s "continue loan"
    s.multiStepProcess)

/-- C2: the suspension round-trip.  Each turn routes as the scenario
demands (loan process, loan process, balance, loan process); after
`continue loan` the session again holds a `loan_application` process at
`current_step = purpose` whose `collected_data.amount` is the originally
entered 15000; and the balance turn left a suspension snapshot holding the
same amount. -/
theorem suspension_roundtrip :
    process_turn_route "i want to apply for a loan" c2state0 = Route.loanProcess ∧
    c2state1.map (fun s => process_turn_route "15000" s) = some Route.loanProcess ∧
    c2state2.map (fun s => process_turn_route "whats my balance" s) =
      some Route.balance ∧
    c2state3.map (fun s => process_turn_route "continue loan" s) =
      some Route.loanProcess ∧
    (c2state4.bind (fun s => s.multiStepProcess)).map
      (fun pr => (pr.type, pr.currentStep, pr.collectedData.amount)) =
      some (some "loan_application", some "purpose", some 15000) ∧
    (c2state3.bind (fun s => (s.suspendedProcesses.map
      (fun sp => sp.multiStepProcess.collectedData.amount)).head?)) =
      some (some 15000) := by
  decide

end BankingAgent
